import Mathlib

/-!
# Verification of the newspaper article-extraction pipeline

Shallow embedding of src/newspaper/article.py and src/newspaper/utils.py.
Python strings are modelled as lists of unicode code points (PyStr), so that
slicing, split and len correspond to List.take, List.splitOn and List.length
exactly.

The collaborator classes imported by article.py (Configuration,
ContentExtractor, DocumentCleaner, OutputFormatter, the HTML parser and
VideoExtractor) are not part of the repository source; following the spec
they are modelled as an explicit bundle of pure functions (Env) over an
abstract node type, and the pipeline is proved for every such bundle.
-/

/-- A Python string: a finite sequence of unicode code points. -/
abbrev PyStr := List Char

/-- Coerce a Lean string literal into the PyStr model. -/
def pystr (s : String) : PyStr := s.data

/-- Python strip: drop leading and trailing whitespace. -/
def pystrip (s : PyStr) : PyStr :=
  ((s.dropWhile Char.isWhitespace).reverse.dropWhile Char.isWhitespace).reverse

/-- Modelled from the spec: the configuration bundle of recognized options
(spec section 6); the Configuration class itself is not in src/.  Only the
fields read by article.py are given; their default values are not observable
from the source, so Configuration.default below fixes arbitrary ones. -/
structure Configuration where
  MAX_TEXT : Nat
  MAX_TITLE : Nat
  MAX_SUMMARY : Nat
  MAX_KEYWORDS : Nat
  MAX_AUTHORS : Nat
  MIN_WORD_COUNT : Nat
  MIN_SENT_COUNT : Nat
  use_meta_language : Bool
  language : PyStr
deriving Repr, DecidableEq

/-- Modelled from the spec: default thresholds of a fresh Configuration;
the concrete numbers are not in src/ and no claim depends on them. -/
def Configuration.default : Configuration :=
  { MAX_TEXT := 100000, MAX_TITLE := 200, MAX_SUMMARY := 5000,
    MAX_KEYWORDS := 35, MAX_AUTHORS := 10, MIN_WORD_COUNT := 300,
    MIN_SENT_COUNT := 7, use_meta_language := true,
    language := (pystr (r"en")) }

/-- Embeds the ArticleException class of article.py. -/
structure ArticleException where
  msg : PyStr
deriving Repr, DecidableEq

/-- A video object as consumed by Article.set_movies (only its src attribute
is read there). -/
structure MovieObj where
  src : PyStr
deriving Repr, DecidableEq

/-- Modelled from the spec: the external collaborators called by
Article.parse and Article.is_valid_body (HTML parser, ContentExtractor,
DocumentCleaner, OutputFormatter, VideoExtractor, the stopword-language
registry of utils.get_available_languages, and the md5 hash used for
link_hash), none of which is in src/.  Per spec section 5 the pipeline is a
pure synchronous computation, so each collaborator is a function over an
abstract node type Node; fromstring returns none when the raw HTML cannot be
parsed into any tree (spec section 7). -/
structure Env (Node : Type) where
  fromstring : PyStr → Option Node
  get_title : Node → PyStr
  get_authors : Node → List PyStr
  get_meta_lang : Node → PyStr
  get_meta_site_name : Node → PyStr
  get_meta_description : Node → PyStr
  extract_tags : Node → List PyStr
  get_meta_keywords : Node → PyStr
  get_meta_data : Node → List (PyStr × PyStr)
  get_meta_type : Option Node → PyStr
  clean : Node → Node
  calculate_best_node : Node → Option Node
  post_cleanup : Node → Node
  get_formatted : PyStr → Node → PyStr × PyStr
  get_videos : Node → List (Option MovieObj)
  available_languages : List PyStr
  md5hex : PyStr → PyStr

/-- The mutable state of an Article object: every field assigned by
Article.init (lines 41-124 of article.py), plus link_hash, which in Python
first comes into existence during parse (modelled as an Option).  The
top_img/top_image and imgs/images alias pairs are modelled as one field
each. -/
structure Article (Node : Type) where
  config : Configuration
  title : PyStr
  top_image : PyStr
  meta_img : PyStr
  images : List PyStr
  movies : List PyStr
  text : PyStr
  keywords : List PyStr
  meta_keywords : List PyStr
  tags : List PyStr
  authors : List PyStr
  publish_date : PyStr
  summary : PyStr
  html : PyStr
  article_html : PyStr
  is_parsed : Bool
  meta_description : PyStr
  meta_lang : PyStr
  meta_favicon : PyStr
  meta_site_name : PyStr
  meta_data : List (PyStr × PyStr)
  canonical_link : PyStr
  top_node : Option Node
  clean_top_node : Option Node
  doc : Option Node
  clean_doc : Option Node
  link_hash : Option PyStr
deriving DecidableEq

/-- The post-guard body of the Article constructor: the fresh field values
(article.py lines 41-124).  The kwargs flow into the configuration is the
generic extend_config of utils.py, modelled and verified separately below
over a dynamic-attribute model. -/
def Article.new (Node : Type) (html : PyStr) (title : PyStr)
    (config : Configuration) : Article Node :=
  { config := config
    title := title
    top_image := []
    meta_img := []
    images := []
    movies := []
    text := []
    keywords := []
    meta_keywords := []
    tags := []
    authors := []
    publish_date := []
    summary := []
    html := html
    article_html := []
    is_parsed := false
    meta_description := []
    meta_lang := []
    meta_favicon := []
    meta_site_name := []
    meta_data := []
    canonical_link := []
    top_node := none
    clean_top_node := none
    doc := none
    clean_doc := none
    link_hash := none }

/-- A constructor argument of the Article constructor that Python
type-checks with isinstance against Configuration: either an ordinary string
or a mistakenly passed Configuration object. -/
inductive InitArg where
  | str (s : PyStr)
  | conf (c : Configuration)
deriving Repr, DecidableEq

/-- Embeds the Python isinstance check against Configuration. -/
def InitArg.isConf : InitArg → Bool
  | .str _ => false
  | .conf _ => true

/-- Embeds the Article constructor (article.py lines 31-124): raises
ArticleException when title or source_url is a Configuration instance,
otherwise builds the fresh state; the Python expression resolving an absent
config to a fresh Configuration is Option.getD Configuration.default. -/
def Article.init (Node : Type) (html : PyStr) (title source_url : InitArg)
    (config : Option Configuration) : Except ArticleException (Article Node) :=
  if title.isConf || source_url.isConf then
    .error ⟨(pystr (r"Configuration object being passed incorrectly as title or source_url! Please verify Articles init fn."))⟩
  else
    let t := match title with | .str s => s | .conf _ => []
    .ok (Article.new Node html t (config.getD Configuration.default))

/-- Embeds Article.set_title (article.py lines 276-278). -/
def Article.set_title {Node} (a : Article Node) (input_title : PyStr) :
    Article Node :=
  if input_title ≠ [] then
    { a with title := input_title.take a.config.MAX_TITLE }
  else a

/-- Embeds Article.set_text (article.py lines 280-283). -/
def Article.set_text {Node} (a : Article Node) (text : PyStr) : Article Node :=
  let text := text.take a.config.MAX_TEXT
  if text ≠ [] then { a with text := text } else a

/-- Embeds Article.set_article_html (article.py lines 293-297). -/
def Article.set_article_html {Node} (a : Article Node)
    (article_html : PyStr) : Article Node :=
  if article_html ≠ [] then { a with article_html := article_html } else a

/-- Embeds Article.set_authors (article.py lines 314-320); the input is
always a list here, so the isinstance list guard cannot fire. -/
def Article.set_authors {Node} (a : Article Node) (authors : List PyStr) :
    Article Node :=
  if authors ≠ [] then
    { a with authors := authors.take a.config.MAX_AUTHORS }
  else a

/-- Embeds Article.set_keywords (article.py lines 306-312), list branch. -/
def Article.set_keywords {Node} (a : Article Node)
    (keywords : List PyStr) : Article Node :=
  if keywords ≠ [] then
    { a with keywords := keywords.take a.config.MAX_KEYWORDS }
  else a

/-- Embeds Article.set_summary (article.py lines 322-326). -/
def Article.set_summary {Node} (a : Article Node) (summary : PyStr) :
    Article Node :=
  { a with summary := summary.take a.config.MAX_SUMMARY }

/-- Embeds Article.set_meta_language (article.py lines 328-333); the
available-language registry (a stopword-directory scan in utils.py) comes
from the environment. -/
def Article.set_meta_language {Node} (env : Env Node) (a : Article Node)
    (meta_lang : PyStr) : Article Node :=
  if meta_lang ≠ [] ∧ meta_lang.length ≥ 2 ∧
      meta_lang ∈ env.available_languages
  then { a with meta_lang := meta_lang.take 2 }
  else a

/-- Embeds Article.set_meta_keywords (article.py lines 335-338). -/
def Article.set_meta_keywords {Node} (a : Article Node)
    (meta_keywords : PyStr) : Article Node :=
  { a with meta_keywords := (meta_keywords.splitOn ',').map pystrip }

/-- Embeds Article.set_meta_favicon (article.py lines 340-341). -/
def Article.set_meta_favicon {Node} (a : Article Node) (s : PyStr) :
    Article Node :=
  { a with meta_favicon := s }

/-- Embeds Article.set_meta_site_name (article.py lines 343-344). -/
def Article.set_meta_site_name {Node} (a : Article Node) (s : PyStr) :
    Article Node :=
  { a with meta_site_name := s }

/-- Embeds Article.set_meta_description (article.py lines 346-347). -/
def Article.set_meta_description {Node} (a : Article Node) (s : PyStr) :
    Article Node :=
  { a with meta_description := s }

/-- Embeds Article.set_meta_data (article.py lines 349-350). -/
def Article.set_meta_data {Node} (a : Article Node)
    (m : List (PyStr × PyStr)) : Article Node :=
  { a with meta_data := m }

/-- Embeds Article.set_tags (article.py lines 352-353). -/
def Article.set_tags {Node} (a : Article Node) (tags : List PyStr) :
    Article Node :=
  { a with tags := tags }

/-- Embeds Article.set_movies (article.py lines 355-359): keep the src of
the objects that are not None and have a truthy src. -/
def Article.set_movies {Node} (a : Article Node)
    (movie_objects : List (Option MovieObj)) : Article Node :=
  { a with movies :=
      ((movie_objects.filterMap id).filterMap
        (fun m => if m.src ≠ [] then some m.src else none)) }

/-- Embeds Article.set_imgs (article.py lines 299-304). -/
def Article.set_imgs {Node} (a : Article Node) (imgs : List PyStr) :
    Article Node :=
  { a with images := imgs }

/-- Embeds Article.set_html (article.py lines 285-291), string branch. -/
def Article.set_html {Node} (a : Article Node) (html : PyStr) :
    Article Node :=
  if html ≠ [] then { a with html := html } else a

/-- Embeds Article.get_parse_candidate (article.py lines 241-247) reduced to
the link_hash it yields: the md5 hex digest of the html joined with the
wall-clock reading by a dot (utils.py lines 47-63).  The URLHelper branch
for falsy html differs only in hashing an unreplaced url string and is
reachable only if the parser produced a tree from empty input, which the
modelled parser contract (spec section 7) excludes; both branches are
modelled as the same hash shape. -/
def Article.get_parse_candidate {Node} (env : Env Node) (now : PyStr)
    (a : Article Node) : PyStr :=
  env.md5hex a.html ++ ('.' :: now)

/-- Modelled from the spec (section 4.4): the language hint handed to the
OutputFormatter; update_language with the meta language is called only under
config.use_meta_language (article.py lines 165-167), and the formatter is
otherwise configured with config.language.  The OutputFormatter class is not
in src/. -/
def effectiveLang {Node} (a : Article Node) : PyStr :=
  if a.config.use_meta_language ∧ a.meta_lang ≠ [] then a.meta_lang
  else a.config.language

/-- Embeds Article.parse (article.py lines 141-203), with the collaborators
drawn from env and the wall clock passed as now.  A Python deepcopy of a
tree is the value itself in this functional model.  release_resources (line
203) only touches the filesystem and is not modelled. -/
def Article.parse {Node} (env : Env Node) (now : PyStr) (a : Article Node) :
    Article Node :=
  match env.fromstring a.html with
  | none => { a with doc := none, clean_doc := none }
  | some d =>
    let a := { a with doc := some d, clean_doc := some d }
    let a := { a with link_hash := some (a.get_parse_candidate env now) }
    let a := a.set_title (env.get_title d)
    let a := a.set_authors (env.get_authors d)
    let a := a.set_meta_language env (env.get_meta_lang d)
    let a := a.set_meta_site_name (env.get_meta_site_name d)
    let a := a.set_meta_description (env.get_meta_description d)
    let a := a.set_tags (env.extract_tags d)
    let a := a.set_meta_keywords (env.get_meta_keywords d)
    let a := a.set_meta_data (env.get_meta_data d)
    let cleaned := env.clean d
    let a := { a with doc := some cleaned }
    let a := { a with top_node := env.calculate_best_node cleaned }
    match a.top_node with
    | none => { a with is_parsed := true }
    | some tn =>
      let a := a.set_movies (env.get_videos tn)
      let tn2 := env.post_cleanup tn
      let a := { a with top_node := some tn2, clean_top_node := some tn2 }
      let fm := env.get_formatted (effectiveLang a) tn2
      let a := a.set_article_html fm.2
      let a := a.set_text fm.1
      { a with is_parsed := true }

/-- Embeds Article.is_valid_body (article.py lines 205-238): raises in the
Unparsed state, otherwise runs the threshold cascade on the extracted text
and title. -/
def Article.is_valid_body {Node} (env : Env Node) (a : Article Node) :
    Except ArticleException Bool :=
  if a.is_parsed = false then
    .error ⟨(pystr (r"must parse article before checking if its body is valid!"))⟩
  else
    let meta_type := env.get_meta_type a.clean_doc
    let wordcount := a.text.splitOn ' '
    let sentcount := a.text.splitOn '.'
    if meta_type = (pystr (r"article")) ∧
        wordcount.length > a.config.MIN_WORD_COUNT then
      .ok true
    else if (a.title.splitOn ' ').length < 2 then
      .ok false
    else if wordcount.length < a.config.MIN_WORD_COUNT then
      .ok false
    else if sentcount.length < a.config.MIN_SENT_COUNT then
      .ok false
    else if a.html = [] then
      .ok false
    else
      .ok true

/-- The mutating operations of the Article class (its public setters and the
parse and build entry points), used to state the state-machine invariant;
queries such as is_valid_body return values without producing a new state in
this functional model. -/
inductive Op (Node : Type) where
  | parse (env : Env Node) (now : PyStr)
  | build (env : Env Node) (now : PyStr)
  | set_title (t : PyStr)
  | set_text (t : PyStr)
  | set_html (h : PyStr)
  | set_article_html (h : PyStr)
  | set_imgs (l : List PyStr)
  | set_keywords (l : List PyStr)
  | set_authors (l : List PyStr)
  | set_summary (s : PyStr)
  | set_meta_language (env : Env Node) (s : PyStr)
  | set_meta_keywords (s : PyStr)
  | set_meta_favicon (s : PyStr)
  | set_meta_site_name (s : PyStr)
  | set_meta_description (s : PyStr)
  | set_meta_data (m : List (PyStr × PyStr))
  | set_tags (l : List PyStr)
  | set_movies (l : List (Option MovieObj))

/-- Tells whether an operation is an invocation of the parse pipeline
(Article.build just delegates to Article.parse, article.py lines 126-131). -/
def Op.isParse {Node} : Op Node → Bool
  | .parse _ _ => true
  | .build _ _ => true
  | _ => false

/-- Runs one Article operation on a state. -/
def applyOp {Node} (op : Op Node) (a : Article Node) : Article Node :=
  match op with
  | .parse env now => a.parse env now
  | .build env now => a.parse env now
  | .set_title t => a.set_title t
  | .set_text t => a.set_text t
  | .set_html h => a.set_html h
  | .set_article_html h => a.set_article_html h
  | .set_imgs l => a.set_imgs l
  | .set_keywords l => a.set_keywords l
  | .set_authors l => a.set_authors l
  | .set_summary s => a.set_summary s
  | .set_meta_language env s => a.set_meta_language env s
  | .set_meta_keywords s => a.set_meta_keywords s
  | .set_meta_favicon s => a.set_meta_favicon s
  | .set_meta_site_name s => a.set_meta_site_name s
  | .set_meta_description s => a.set_meta_description s
  | .set_meta_data m => a.set_meta_data m
  | .set_tags l => a.set_tags l
  | .set_movies l => a.set_movies l

/-- The language hint that Article.parse of a freshly constructed article
hands to the formatter, expressed directly in terms of the document: the
meta language when it passed set_meta_language and use_meta_language is on,
else the configured language.  Derived abbreviation used to state the
formula lemmas about Article.parse. -/
def newLang {Node} (env : Env Node) (d : Node) (cfg : Configuration) :
    PyStr :=
  let ml :=
    if env.get_meta_lang d ≠ [] ∧ (env.get_meta_lang d).length ≥ 2 ∧
        env.get_meta_lang d ∈ env.available_languages
    then (env.get_meta_lang d).take 2 else []
  if cfg.use_meta_language ∧ ml ≠ [] then ml else cfg.language

/-- Written from the spec claim (section 4.4 caps): a truncated output ends
in the middle of a word when it is a proper nonempty prefix of the full text
and the characters on both sides of the cut are non-whitespace. -/
def cutsMidWord (full cut : PyStr) : Bool :=
  (full.take cut.length == cut) && (cut.length < full.length) &&
  (match cut.getLast?, (full.drop cut.length).head? with
   | some c1, some c2 => !c1.isWhitespace && !c2.isWhitespace
   | _, _ => false)

/-- Embeds hasattr of Python as used by utils.extend_config: a dynamic
object is a finite partial assignment of attribute names to values. -/
def hasattr {V : Type} (c : String → Option V) (k : String) : Bool :=
  (c k).isSome

/-- Embeds setattr of Python on the dynamic-object model. -/
def setattr {V : Type} (c : String → Option V) (k : String) (v : V) :
    String → Option V :=
  fun x => if x = k then some v else c x

/-- Embeds extend_config (utils.py lines 127-137): for each item, set the
attribute only when the configuration already has it. -/
def extend_config {V : Type} (config : String → Option V)
    (config_items : List (String × V)) : String → Option V :=
  config_items.foldl
    (fun c kv => if hasattr c kv.1 then setattr c kv.1 kv.2 else c) config

/-- The value of the last item carrying a given key, used to describe
extend_config (Python dict iteration yields each key once, but the model
covers duplicate keys too). -/
def lookupLast {V : Type} (items : List (String × V)) (k : String) :
    Option V :=
  match items with
  | [] => none
  | kv :: rest =>
    (lookupLast rest k).elim (if kv.1 = k then some kv.2 else none) some

/-- A concrete collaborator bundle over a one-point node type whose scorer
reports no candidate, used to evaluate the theorems on closed inputs. -/
def envNoCand : Env Unit :=
  { fromstring := fun _ => some ()
    get_title := fun _ => (pystr (r"A Sample Headline"))
    get_authors := fun _ => []
    get_meta_lang := fun _ => []
    get_meta_site_name := fun _ => []
    get_meta_description := fun _ => []
    extract_tags := fun _ => []
    get_meta_keywords := fun _ => []
    get_meta_data := fun _ => []
    get_meta_type := fun _ => []
    clean := id
    calculate_best_node := fun _ => none
    post_cleanup := id
    get_formatted := fun _ _ => ([], [])
    get_videos := fun _ => []
    available_languages := []
    md5hex := fun _ => [] }

/-- A concrete collaborator bundle over a one-point node type whose scorer
selects the node and whose formatter emits a two-word text, used to evaluate
the theorems on closed inputs. -/
def envWithCand : Env Unit :=
  { envNoCand with
    calculate_best_node := fun _ => some ()
    get_formatted := fun _ _ =>
      ((pystr (r"aaa bbb")), (pystr (r"<p>aaa bbb</p>"))) }

/-- A small configuration that makes the text and title caps bite on short
closed inputs. -/
def cfgSmall : Configuration :=
  { Configuration.default with MAX_TEXT := 5, MAX_TITLE := 2 }

/-- A concrete parsed article state used to evaluate theorems about
Parsed-state queries on closed inputs. -/
def sampleParsed : Article Unit :=
  { Article.new Unit (pystr (r"<html><p>x</p></html>"))
      (pystr (r"A Headline Words")) Configuration.default with
    is_parsed := true, text := (pystr (r"too short")) }


/-- A concrete dynamic configuration object with two attributes, used to
evaluate the extend_config theorem on closed inputs. -/
def sampleConfigMap : String → Option Nat :=
  fun k =>
    if k = (r"MAX_TEXT") then some 1
    else if k = (r"MIN_WORD_COUNT") then some 300 else none


/-! Projection lemmas for the setters, used to evaluate the parse chain. -/

@[simp] theorem set_meta_site_name_def {Node} (a : Article Node) (s : PyStr) :
    a.set_meta_site_name s = { a with meta_site_name := s } := rfl

@[simp] theorem set_meta_description_def {Node} (a : Article Node) (s : PyStr) :
    a.set_meta_description s = { a with meta_description := s } := rfl

@[simp] theorem set_tags_def {Node} (a : Article Node) (l : List PyStr) :
    a.set_tags l = { a with tags := l } := rfl

@[simp] theorem set_meta_keywords_def {Node} (a : Article Node) (s : PyStr) :
    a.set_meta_keywords s =
      { a with meta_keywords := (s.splitOn ',').map pystrip } := rfl

@[simp] theorem set_meta_data_def {Node} (a : Article Node)
    (m : List (PyStr × PyStr)) : a.set_meta_data m = { a with meta_data := m } := rfl

@[simp] theorem set_movies_def {Node} (a : Article Node)
    (l : List (Option MovieObj)) : a.set_movies l =
      { a with movies := ((l.filterMap id).filterMap
          (fun m => if m.src ≠ [] then some m.src else none)) } := rfl

@[simp] theorem set_meta_favicon_def {Node} (a : Article Node) (s : PyStr) :
    a.set_meta_favicon s = { a with meta_favicon := s } := rfl

@[simp] theorem set_imgs_def {Node} (a : Article Node) (l : List PyStr) :
    a.set_imgs l = { a with images := l } := rfl

@[simp] theorem set_summary_def {Node} (a : Article Node) (s : PyStr) :
    a.set_summary s = { a with summary := s.take a.config.MAX_SUMMARY } := rfl

@[simp] theorem set_title_config {Node} (a : Article Node) (t : PyStr) :
    (a.set_title t).config = a.config := by
  unfold Article.set_title; split <;> rfl

@[simp] theorem set_title_is_parsed {Node} (a : Article Node) (t : PyStr) :
    (a.set_title t).is_parsed = a.is_parsed := by
  unfold Article.set_title; split <;> rfl

@[simp] theorem set_title_text {Node} (a : Article Node) (t : PyStr) :
    (a.set_title t).text = a.text := by
  unfold Article.set_title; split <;> rfl

@[simp] theorem set_title_article_html {Node} (a : Article Node) (t : PyStr) :
    (a.set_title t).article_html = a.article_html := by
  unfold Article.set_title; split <;> rfl

@[simp] theorem set_title_top_node {Node} (a : Article Node) (t : PyStr) :
    (a.set_title t).top_node = a.top_node := by
  unfold Article.set_title; split <;> rfl

@[simp] theorem set_title_clean_top_node {Node} (a : Article Node) (t : PyStr) :
    (a.set_title t).clean_top_node = a.clean_top_node := by
  unfold Article.set_title; split <;> rfl

@[simp] theorem set_title_meta_lang {Node} (a : Article Node) (t : PyStr) :
    (a.set_title t).meta_lang = a.meta_lang := by
  unfold Article.set_title; split <;> rfl

@[simp] theorem set_title_title {Node} (a : Article Node) (t : PyStr) :
    (a.set_title t).title =
      if t ≠ [] then t.take a.config.MAX_TITLE else a.title := by
  unfold Article.set_title; split <;> rename_i h <;> simp [h]

@[simp] theorem set_authors_config {Node} (a : Article Node) (l : List PyStr) :
    (a.set_authors l).config = a.config := by
  unfold Article.set_authors; split <;> rfl

@[simp] theorem set_authors_is_parsed {Node} (a : Article Node) (l : List PyStr) :
    (a.set_authors l).is_parsed = a.is_parsed := by
  unfold Article.set_authors; split <;> rfl

@[simp] theorem set_authors_text {Node} (a : Article Node) (l : List PyStr) :
    (a.set_authors l).text = a.text := by
  unfold Article.set_authors; split <;> rfl

@[simp] theorem set_authors_article_html {Node} (a : Article Node) (l : List PyStr) :
    (a.set_authors l).article_html = a.article_html := by
  unfold Article.set_authors; split <;> rfl

@[simp] theorem set_authors_top_node {Node} (a : Article Node) (l : List PyStr) :
    (a.set_authors l).top_node = a.top_node := by
  unfold Article.set_authors; split <;> rfl

@[simp] theorem set_authors_clean_top_node {Node} (a : Article Node)
    (l : List PyStr) : (a.set_authors l).clean_top_node = a.clean_top_node := by
  unfold Article.set_authors; split <;> rfl

@[simp] theorem set_authors_meta_lang {Node} (a : Article Node) (l : List PyStr) :
    (a.set_authors l).meta_lang = a.meta_lang := by
  unfold Article.set_authors; split <;> rfl

@[simp] theorem set_meta_language_config {Node} (env : Env Node)
    (a : Article Node) (s : PyStr) :
    (a.set_meta_language env s).config = a.config := by
  unfold Article.set_meta_language; split <;> rfl

@[simp] theorem set_meta_language_is_parsed {Node} (env : Env Node)
    (a : Article Node) (s : PyStr) :
    (a.set_meta_language env s).is_parsed = a.is_parsed := by
  unfold Article.set_meta_language; split <;> rfl

@[simp] theorem set_meta_language_text {Node} (env : Env Node)
    (a : Article Node) (s : PyStr) :
    (a.set_meta_language env s).text = a.text := by
  unfold Article.set_meta_language; split <;> rfl

@[simp] theorem set_meta_language_article_html {Node} (env : Env Node)
    (a : Article Node) (s : PyStr) :
    (a.set_meta_language env s).article_html = a.article_html := by
  unfold Article.set_meta_language; split <;> rfl

@[simp] theorem set_meta_language_top_node {Node} (env : Env Node)
    (a : Article Node) (s : PyStr) :
    (a.set_meta_language env s).top_node = a.top_node := by
  unfold Article.set_meta_language; split <;> rfl

@[simp] theorem set_meta_language_clean_top_node {Node} (env : Env Node)
    (a : Article Node) (s : PyStr) :
    (a.set_meta_language env s).clean_top_node = a.clean_top_node := by
  unfold Article.set_meta_language; split <;> rfl

@[simp] theorem set_meta_language_meta_lang {Node} (env : Env Node)
    (a : Article Node) (s : PyStr) :
    (a.set_meta_language env s).meta_lang =
      if s ≠ [] ∧ s.length ≥ 2 ∧ s ∈ env.available_languages
      then s.take 2 else a.meta_lang := by
  unfold Article.set_meta_language; split <;> rename_i h <;> simp [h]

@[simp] theorem set_article_html_config {Node} (a : Article Node) (s : PyStr) :
    (a.set_article_html s).config = a.config := by
  unfold Article.set_article_html; split <;> rfl

@[simp] theorem set_article_html_is_parsed {Node} (a : Article Node) (s : PyStr) :
    (a.set_article_html s).is_parsed = a.is_parsed := by
  unfold Article.set_article_html; split <;> rfl

@[simp] theorem set_article_html_text {Node} (a : Article Node) (s : PyStr) :
    (a.set_article_html s).text = a.text := by
  unfold Article.set_article_html; split <;> rfl

@[simp] theorem set_article_html_top_node {Node} (a : Article Node) (s : PyStr) :
    (a.set_article_html s).top_node = a.top_node := by
  unfold Article.set_article_html; split <;> rfl

@[simp] theorem set_article_html_clean_top_node {Node} (a : Article Node)
    (s : PyStr) : (a.set_article_html s).clean_top_node = a.clean_top_node := by
  unfold Article.set_article_html; split <;> rfl

@[simp] theorem set_article_html_meta_lang {Node} (a : Article Node) (s : PyStr) :
    (a.set_article_html s).meta_lang = a.meta_lang := by
  unfold Article.set_article_html; split <;> rfl

@[simp] theorem set_article_html_article_html {Node} (a : Article Node)
    (s : PyStr) : (a.set_article_html s).article_html =
      if s ≠ [] then s else a.article_html := by
  unfold Article.set_article_html; split <;> rename_i h <;> simp [h]

@[simp] theorem set_text_config {Node} (a : Article Node) (t : PyStr) :
    (a.set_text t).config = a.config := by
  simp only [Article.set_text]; split <;> rfl

@[simp] theorem set_text_is_parsed {Node} (a : Article Node) (t : PyStr) :
    (a.set_text t).is_parsed = a.is_parsed := by
  simp only [Article.set_text]; split <;> rfl

@[simp] theorem set_text_article_html {Node} (a : Article Node) (t : PyStr) :
    (a.set_text t).article_html = a.article_html := by
  simp only [Article.set_text]; split <;> rfl

@[simp] theorem set_text_top_node {Node} (a : Article Node) (t : PyStr) :
    (a.set_text t).top_node = a.top_node := by
  simp only [Article.set_text]; split <;> rfl

@[simp] theorem set_text_clean_top_node {Node} (a : Article Node) (t : PyStr) :
    (a.set_text t).clean_top_node = a.clean_top_node := by
  simp only [Article.set_text]; split <;> rfl

@[simp] theorem set_text_meta_lang {Node} (a : Article Node) (t : PyStr) :
    (a.set_text t).meta_lang = a.meta_lang := by
  simp only [Article.set_text]; split <;> rfl

@[simp] theorem set_text_text {Node} (a : Article Node) (t : PyStr) :
    (a.set_text t).text =
      if t.take a.config.MAX_TEXT ≠ [] then t.take a.config.MAX_TEXT
      else a.text := by
  simp only [Article.set_text]; split <;> rename_i h <;> simp_all

@[simp] theorem set_html_is_parsed {Node} (a : Article Node) (h : PyStr) :
    (a.set_html h).is_parsed = a.is_parsed := by
  unfold Article.set_html; split <;> rfl

@[simp] theorem set_keywords_is_parsed {Node} (a : Article Node)
    (l : List PyStr) : (a.set_keywords l).is_parsed = a.is_parsed := by
  unfold Article.set_keywords; split <;> rfl

theorem parse_new_text {Node} (env : Env Node) (now html title : PyStr)
    (cfg : Configuration) :
    ((Article.new Node html title cfg).parse env now).text =
      match env.fromstring html with
      | none => []
      | some d =>
        match env.calculate_best_node (env.clean d) with
        | none => []
        | some tn =>
          (env.get_formatted (newLang env d cfg) (env.post_cleanup tn)).1.take
            cfg.MAX_TEXT := by
  cases hf : env.fromstring html with
  | none => simp [Article.parse, Article.new, hf]
  | some d =>
    cases hb : env.calculate_best_node (env.clean d) with
    | none =>
      simp [Article.parse, Article.new, hf, hb]
    | some tn =>
      simp [Article.parse, Article.new, hf, hb, effectiveLang, newLang]
      split_ifs <;> simp_all <;> tauto

theorem parse_new_article_html {Node} (env : Env Node) (now html title : PyStr)
    (cfg : Configuration) :
    ((Article.new Node html title cfg).parse env now).article_html =
      match env.fromstring html with
      | none => []
      | some d =>
        match env.calculate_best_node (env.clean d) with
        | none => []
        | some tn =>
          (env.get_formatted (newLang env d cfg) (env.post_cleanup tn)).2 := by
  cases hf : env.fromstring html with
  | none => simp [Article.parse, Article.new, hf]
  | some d =>
    cases hb : env.calculate_best_node (env.clean d) with
    | none =>
      simp [Article.parse, Article.new, hf, hb]
    | some tn =>
      simp [Article.parse, Article.new, hf, hb, effectiveLang, newLang]

theorem parse_new_top_node {Node} (env : Env Node) (now html title : PyStr)
    (cfg : Configuration) :
    ((Article.new Node html title cfg).parse env now).top_node =
      match env.fromstring html with
      | none => none
      | some d =>
        match env.calculate_best_node (env.clean d) with
        | none => none
        | some tn => some (env.post_cleanup tn) := by
  cases hf : env.fromstring html with
  | none => simp [Article.parse, Article.new, hf]
  | some d =>
    cases hb : env.calculate_best_node (env.clean d) with
    | none =>
      simp [Article.parse, Article.new, hf, hb]
    | some tn =>
      simp [Article.parse, Article.new, hf, hb, effectiveLang, newLang]

theorem parse_new_clean_top_node {Node} (env : Env Node)
    (now html title : PyStr) (cfg : Configuration) :
    ((Article.new Node html title cfg).parse env now).clean_top_node =
      match env.fromstring html with
      | none => none
      | some d =>
        match env.calculate_best_node (env.clean d) with
        | none => none
        | some tn => some (env.post_cleanup tn) := by
  cases hf : env.fromstring html with
  | none => simp [Article.parse, Article.new, hf]
  | some d =>
    cases hb : env.calculate_best_node (env.clean d) with
    | none =>
      simp [Article.parse, Article.new, hf, hb]
    | some tn =>
      simp [Article.parse, Article.new, hf, hb, effectiveLang, newLang]

theorem parse_new_is_parsed {Node} (env : Env Node) (now html title : PyStr)
    (cfg : Configuration) :
    ((Article.new Node html title cfg).parse env now).is_parsed =
      match env.fromstring html with
      | none => false
      | some _ => true := by
  cases hf : env.fromstring html with
  | none => simp [Article.parse, Article.new, hf]
  | some d =>
    cases hb : env.calculate_best_node (env.clean d) with
    | none =>
      simp [Article.parse, Article.new, hf, hb]
    | some tn =>
      simp [Article.parse, Article.new, hf, hb, effectiveLang, newLang]

theorem parse_new_config {Node} (env : Env Node) (now html title : PyStr)
    (cfg : Configuration) :
    ((Article.new Node html title cfg).parse env now).config = cfg := by
  cases hf : env.fromstring html with
  | none => simp [Article.parse, Article.new, hf]
  | some d =>
    cases hb : env.calculate_best_node (env.clean d) with
    | none =>
      simp [Article.parse, Article.new, hf, hb]
    | some tn =>
      simp [Article.parse, Article.new, hf, hb, effectiveLang, newLang]

theorem parse_is_parsed_mono {Node} (env : Env Node) (now : PyStr)
    (a : Article Node) (h : a.is_parsed = true) :
    (a.parse env now).is_parsed = true := by
  cases hf : env.fromstring a.html with
  | none => simp [Article.parse, hf, h]
  | some d =>
    cases hb : env.calculate_best_node (env.clean d) with
    | none =>
      simp [Article.parse, hf, hb]
    | some tn =>
      simp [Article.parse, hf, hb]

theorem parse_is_parsed_stable {Node} (env : Env Node) (now : PyStr)
    (a : Article Node) (h : (a.parse env now).is_parsed = false) :
    a.is_parsed = false := by
  cases hf : env.fromstring a.html with
  | none => simpa [Article.parse, hf] using h
  | some d =>
    cases hb : env.calculate_best_node (env.clean d) with
    | none =>
      simp_all [Article.parse, hf, hb]
    | some tn =>
      simp_all [Article.parse, hf, hb]

/-- C1: on any input whose scorer reports no candidate, parse completes
normally: top_node and clean_top_node stay none, text and article_html stay
empty, and the state still advances to Parsed. -/
theorem C1_no_candidate_completes_gracefully {Node} (env : Env Node)
    (now html title : PyStr) (cfg : Configuration) (d : Node)
    (hdoc : env.fromstring html = some d)
    (hnone : env.calculate_best_node (env.clean d) = none) :
    ((Article.new Node html title cfg).parse env now).top_node = none ∧
    ((Article.new Node html title cfg).parse env now).clean_top_node = none ∧
    ((Article.new Node html title cfg).parse env now).text = [] ∧
    ((Article.new Node html title cfg).parse env now).article_html = [] ∧
    ((Article.new Node html title cfg).parse env now).is_parsed = true := by
  refine ⟨?_, ?_, ?_, ?_, ?_⟩
  · simp [parse_new_top_node, hdoc, hnone]
  · simp [parse_new_clean_top_node, hdoc, hnone]
  · simp [parse_new_text, hdoc, hnone]
  · simp [parse_new_article_html, hdoc, hnone]
  · simp [parse_new_is_parsed, hdoc]

/-- Closed evaluation of C1 at a concrete input. -/
theorem C1_witness :
    ((Article.new Unit (pystr (r"<html><p>x</p></html>")) []
      Configuration.default).parse envNoCand []).top_node = none ∧
    ((Article.new Unit (pystr (r"<html><p>x</p></html>")) []
      Configuration.default).parse envNoCand []).clean_top_node = none ∧
    ((Article.new Unit (pystr (r"<html><p>x</p></html>")) []
      Configuration.default).parse envNoCand []).text = [] ∧
    ((Article.new Unit (pystr (r"<html><p>x</p></html>")) []
      Configuration.default).parse envNoCand []).article_html = [] ∧
    ((Article.new Unit (pystr (r"<html><p>x</p></html>")) []
      Configuration.default).parse envNoCand []).is_parsed = true :=
  C1_no_candidate_completes_gracefully envNoCand []
    (pystr (r"<html><p>x</p></html>")) [] Configuration.default () rfl rfl

/-- C2 counterexample: with MAX_TEXT five and the formatter emitting the
two-word text aaa bbb, parse stores the first five characters, cutting in
the middle of the second word, hence not at a paragraph boundary. -/
theorem C2_counterexample :
    cutsMidWord (pystr (r"aaa bbb"))
      (((Article.new Unit (pystr (r"<html><p>aaa bbb</p></html>")) []
        cfgSmall).parse envWithCand []).text) = true := by decide

/-- C2 amended: the stored text never exceeds MAX_TEXT, and when a top node
is selected the stored text is exactly the first MAX_TEXT characters of the
formatted text: a plain character cut, not a paragraph-boundary cut. -/
theorem C2_amended_text_cap {Node} (env : Env Node)
    (now html title : PyStr) (cfg : Configuration) :
    (((Article.new Node html title cfg).parse env now).text).length ≤
      cfg.MAX_TEXT ∧
    (∀ d tn, env.fromstring html = some d →
      env.calculate_best_node (env.clean d) = some tn →
      ((Article.new Node html title cfg).parse env now).text =
        (env.get_formatted (newLang env d cfg)
          (env.post_cleanup tn)).1.take cfg.MAX_TEXT) := by
  constructor
  · rw [parse_new_text]
    split
    · simp
    · split
      · simp
      · exact List.length_take_le _ _
  · intro d tn hd htn
    simp [parse_new_text, hd, htn]

/-- Closed evaluation of C2 amended at a concrete input. -/
theorem C2_amended_witness :
    (((Article.new Unit (pystr (r"<html><p>aaa bbb</p></html>")) []
      cfgSmall).parse envWithCand []).text).length ≤ cfgSmall.MAX_TEXT ∧
    ((Article.new Unit (pystr (r"<html><p>aaa bbb</p></html>")) []
      cfgSmall).parse envWithCand []).text =
      (envWithCand.get_formatted (newLang envWithCand () cfgSmall)
        (envWithCand.post_cleanup ())).1.take cfgSmall.MAX_TEXT :=
  ⟨(C2_amended_text_cap envWithCand []
      (pystr (r"<html><p>aaa bbb</p></html>")) [] cfgSmall).1,
   (C2_amended_text_cap envWithCand []
      (pystr (r"<html><p>aaa bbb</p></html>")) [] cfgSmall).2 () () rfl rfl⟩

/-- C3: a parsed article whose text has fewer space-separated pieces than
MIN_WORD_COUNT and whose document carries no article meta type is reported
invalid. -/
theorem C3_short_body_not_article_invalid {Node} (env : Env Node)
    (a : Article Node) (hp : a.is_parsed = true)
    (hmeta : env.get_meta_type a.clean_doc ≠ (pystr (r"article")))
    (hw : (a.text.splitOn ' ').length < a.config.MIN_WORD_COUNT) :
    a.is_valid_body env = .ok false := by
  simp only [Article.is_valid_body, hp]
  rw [if_neg (by simp)]
  rw [if_neg (fun hc => hmeta hc.1)]
  split_ifs <;> rfl

/-- Closed evaluation of C3 at a concrete input. -/
theorem C3_witness : sampleParsed.is_valid_body envNoCand = .ok false :=
  C3_short_body_not_article_invalid envNoCand sampleParsed rfl
    (by decide) (by decide)

/-- C4: calling is_valid_body on an article that has not been parsed raises
ArticleException rather than returning false. -/
theorem C4_unparsed_validity_raises {Node} (env : Env Node)
    (a : Article Node) (hp : a.is_parsed = false) :
    a.is_valid_body env = .error
      ⟨(pystr (r"must parse article before checking if its body is valid!"))⟩ := by
  simp [Article.is_valid_body, hp]

/-- Closed evaluation of C4 at a concrete input. -/
theorem C4_witness :
    (Article.new Unit (pystr (r"<html><p>x</p></html>")) []
      Configuration.default).is_valid_body envNoCand = .error
      ⟨(pystr (r"must parse article before checking if its body is valid!"))⟩ :=
  C4_unparsed_validity_raises envNoCand _ rfl

/-- C5: two articles built from the same HTML and configuration and parsed
at possibly different wall-clock instants yield byte-identical text and
article_html. -/
theorem C5_parse_deterministic {Node} (env : Env Node)
    (html title : PyStr) (cfg : Configuration) (now1 now2 : PyStr) :
    ((Article.new Node html title cfg).parse env now1).text =
      ((Article.new Node html title cfg).parse env now2).text ∧
    ((Article.new Node html title cfg).parse env now1).article_html =
      ((Article.new Node html title cfg).parse env now2).article_html := by
  constructor
  · rw [parse_new_text, parse_new_text]
  · rw [parse_new_article_html, parse_new_article_html]

/-- C6: when the scorer selects a node, the completed parse leaves
clean_top_node equal to the post-cleanup state of the winning node (the
snapshot taken before formatting), and top_node agrees with it. -/
theorem C6_clean_top_node_snapshot {Node} (env : Env Node)
    (now html title : PyStr) (cfg : Configuration) (d tn : Node)
    (hdoc : env.fromstring html = some d)
    (hbest : env.calculate_best_node (env.clean d) = some tn) :
    ((Article.new Node html title cfg).parse env now).clean_top_node =
      some (env.post_cleanup tn) ∧
    ((Article.new Node html title cfg).parse env now).top_node =
      some (env.post_cleanup tn) := by
  constructor
  · simp [parse_new_clean_top_node, hdoc, hbest]
  · simp [parse_new_top_node, hdoc, hbest]

/-- Closed evaluation of C6 at a concrete input. -/
theorem C6_witness :
    ((Article.new Unit (pystr (r"<html><p>aaa bbb</p></html>")) []
      cfgSmall).parse envWithCand []).clean_top_node =
      some (envWithCand.post_cleanup ()) ∧
    ((Article.new Unit (pystr (r"<html><p>aaa bbb</p></html>")) []
      cfgSmall).parse envWithCand []).top_node =
      some (envWithCand.post_cleanup ()) :=
  C6_clean_top_node_snapshot envWithCand []
    (pystr (r"<html><p>aaa bbb</p></html>")) [] cfgSmall () () rfl rfl

/-- C7: is_parsed is false at construction, a completed parse run sets it to
true, no operation resets it to false, and operations other than a parse
invocation leave it unchanged. -/
theorem C7_is_parsed_monotone {Node} (html title : PyStr)
    (cfg : Configuration) (a : Article Node) (op : Op Node)
    (env : Env Node) (now : PyStr) (d : Node) :
    (Article.new Node html title cfg).is_parsed = false ∧
    (env.fromstring html = some d →
      ((Article.new Node html title cfg).parse env now).is_parsed = true) ∧
    (a.is_parsed = true → (applyOp op a).is_parsed = true) ∧
    (op.isParse = false → (applyOp op a).is_parsed = a.is_parsed) := by
  refine ⟨rfl, ?_, ?_, ?_⟩
  · intro hd
    simp [parse_new_is_parsed, hd]
  · intro h
    cases op <;>
      first
        | exact parse_is_parsed_mono _ _ _ h
        | simp [applyOp, h]
  · intro h
    cases op
    case parse env now => simp [Op.isParse] at h
    case build env now => simp [Op.isParse] at h
    all_goals simp [applyOp]

/-- Closed evaluation of C7 at concrete inputs. -/
theorem C7_witness :
    (Article.new Unit (pystr (r"<html><p>x</p></html>")) []
      Configuration.default).is_parsed = false ∧
    ((Article.new Unit (pystr (r"<html><p>x</p></html>")) []
      Configuration.default).parse envNoCand []).is_parsed = true ∧
    (applyOp (Op.set_text (pystr (r"zzz"))) sampleParsed).is_parsed = true :=
  ⟨(C7_is_parsed_monotone (pystr (r"<html><p>x</p></html>")) []
      Configuration.default sampleParsed
      (Op.set_text (pystr (r"zzz"))) envNoCand [] ()).1,
   (C7_is_parsed_monotone (pystr (r"<html><p>x</p></html>")) []
      Configuration.default sampleParsed
      (Op.set_text (pystr (r"zzz"))) envNoCand [] ()).2.1 rfl,
   (C7_is_parsed_monotone (pystr (r"<html><p>x</p></html>")) []
      Configuration.default sampleParsed
      (Op.set_text (pystr (r"zzz"))) envNoCand [] ()).2.2.1 rfl⟩

/-- C8 counterexample: the constructor stores the given title untruncated,
so directly after construction the title exceeds MAX_TITLE. -/
theorem C8_counterexample :
    Article.init Unit (pystr (r"<html></html>"))
      (.str (pystr (r"Two Words"))) (.str []) (some cfgSmall) =
      .ok (Article.new Unit (pystr (r"<html></html>"))
        (pystr (r"Two Words")) cfgSmall) ∧
    ((Article.new Unit (pystr (r"<html></html>"))
      (pystr (r"Two Words")) cfgSmall).title).length >
      (Article.new Unit (pystr (r"<html></html>"))
        (pystr (r"Two Words")) cfgSmall).config.MAX_TITLE := by
  constructor
  · rfl
  · decide

/-- C8 amended: every call to set_title with a non-empty input leaves a
title of at most MAX_TITLE characters; the constructor itself stores the
incoming title untruncated, so the bound holds only from the first
successful set_title on. -/
theorem C8_amended_set_title_cap {Node} (a : Article Node) (t : PyStr)
    (ht : t ≠ []) :
    ((a.set_title t).title).length ≤ a.config.MAX_TITLE := by
  rw [set_title_title, if_pos ht]
  exact List.length_take_le _ _

/-- Closed evaluation of C8 amended at a concrete input. -/
theorem C8_amended_witness :
    (((Article.new Unit (pystr (r"<html></html>")) (pystr (r"Two Words"))
      cfgSmall).set_title (pystr (r"Another Long Headline"))).title).length ≤
      (Article.new Unit (pystr (r"<html></html>")) (pystr (r"Two Words"))
        cfgSmall).config.MAX_TITLE :=
  C8_amended_set_title_cap _ (pystr (r"Another Long Headline")) (by decide)

/-- C9: a Configuration passed as title or source_url makes the constructor
raise ArticleException, and with no Configuration in those positions the
guard never fires and construction succeeds. -/
theorem C9_init_type_guard (Node : Type) (html : PyStr)
    (title source_url : InitArg) (config : Option Configuration) :
    ((title.isConf || source_url.isConf) = true →
      Article.init Node html title source_url config = .error
        ⟨(pystr (r"Configuration object being passed incorrectly as title or source_url! Please verify Articles init fn."))⟩) ∧
    ((title.isConf || source_url.isConf) = false →
      ∃ b, Article.init Node html title source_url config = .ok b) := by
  constructor
  · intro h; simp [Article.init, h]
  · intro h
    cases title with
    | conf c => simp [InitArg.isConf] at h
    | str s =>
      cases source_url with
      | conf c => simp [InitArg.isConf] at h
      | str s2 => exact ⟨_, rfl⟩

/-- Closed evaluation of C9 at concrete inputs. -/
theorem C9_witness :
    Article.init Unit (pystr (r"<html></html>"))
      (.conf Configuration.default) (.str []) none = .error
      ⟨(pystr (r"Configuration object being passed incorrectly as title or source_url! Please verify Articles init fn."))⟩ ∧
    (∃ b, Article.init Unit (pystr (r"<html></html>"))
      (.str (pystr (r"T"))) (.str []) none = .ok b) :=
  ⟨(C9_init_type_guard Unit (pystr (r"<html></html>"))
      (.conf Configuration.default) (.str []) none).1 rfl,
   (C9_init_type_guard Unit (pystr (r"<html></html>"))
      (.str (pystr (r"T"))) (.str []) none).2 rfl⟩

theorem lookupLast_eq_none_of_not_mem {V : Type} (items : List (String × V))
    (k : String) (h : k ∉ items.map Prod.fst) : lookupLast items k = none := by
  induction items with
  | nil => rfl
  | cons kv rest ih =>
    simp only [List.map_cons, List.mem_cons, not_or] at h
    have hne : ¬ kv.1 = k := fun hk => h.1 hk.symm
    rw [lookupLast, ih h.2]
    simp [hne]

theorem extend_config_apply {V : Type} (items : List (String × V))
    (c : String → Option V) (k : String) :
    extend_config c items k =
      match c k, lookupLast items k with
      | some _, some v => some v
      | _, _ => c k := by
  induction items generalizing c with
  | nil =>
    simp only [extend_config, List.foldl_nil]
    cases c k <;> rfl
  | cons kv rest ih =>
    rw [extend_config, List.foldl_cons]
    rw [show (List.foldl
      (fun c kv => if hasattr c kv.1 then setattr c kv.1 kv.2 else c)
      (if hasattr c kv.1 then setattr c kv.1 kv.2 else c) rest) =
      extend_config (if hasattr c kv.1 then setattr c kv.1 kv.2 else c) rest
      from rfl, ih]
    by_cases hk : kv.1 = k
    · subst hk
      cases hck : c kv.1 <;>
        cases hl : lookupLast rest kv.1 <;>
          simp [hasattr, setattr, hck, hl, lookupLast]
    · have hne : ¬ k = kv.1 := fun h => hk h.symm
      have hstep : (if hasattr c kv.1 then setattr c kv.1 kv.2 else c) k = c k := by
        unfold hasattr setattr
        split <;> simp [hne]
      rw [hstep]
      rw [show lookupLast (kv :: rest) k =
        (lookupLast rest k).elim (if kv.1 = k then some kv.2 else none) some
        from rfl]
      cases hl : lookupLast rest k <;> simp [hk]

/-- C10: extend_config sets only attributes the configuration already has,
silently ignores every unrecognized key, leaves all other attributes
unchanged, and hands back the updated configuration. -/
theorem C10_extend_config_frame {V : Type} (c : String → Option V)
    (items : List (String × V)) (k : String) (v : V) :
    (c k = none → extend_config c items k = none) ∧
    (k ∉ items.map Prod.fst → extend_config c items k = c k) ∧
    ((c k).isSome = true → lookupLast items k = some v →
      extend_config c items k = some v) := by
  refine ⟨?_, ?_, ?_⟩
  · intro h
    rw [extend_config_apply, h]
  · intro h
    rw [extend_config_apply, lookupLast_eq_none_of_not_mem items k h]
    cases c k <;> simp
  · intro hsome hl
    rw [extend_config_apply, hl]
    cases hck : c k
    · rw [hck] at hsome
      simp at hsome
    · rfl

/-- Closed evaluation of C10 at concrete inputs: an unrecognized key stays
absent, an untouched key keeps its value, and a recognized key takes the
supplied value. -/
theorem C10_witness :
    extend_config sampleConfigMap
      [((r"bogus"), 7), ((r"MAX_TEXT"), 5)] (r"bogus") = none ∧
    extend_config sampleConfigMap
      [((r"bogus"), 7), ((r"MAX_TEXT"), 5)] (r"MIN_WORD_COUNT") =
        sampleConfigMap (r"MIN_WORD_COUNT") ∧
    extend_config sampleConfigMap
      [((r"bogus"), 7), ((r"MAX_TEXT"), 5)] (r"MAX_TEXT") = some 5 :=
  ⟨(C10_extend_config_frame sampleConfigMap
      [((r"bogus"), 7), ((r"MAX_TEXT"), 5)] (r"bogus") 0).1 rfl,
   (C10_extend_config_frame sampleConfigMap
      [((r"bogus"), 7), ((r"MAX_TEXT"), 5)] (r"MIN_WORD_COUNT") 0).2.1
      (by decide),
   (C10_extend_config_frame sampleConfigMap
      [((r"bogus"), 7), ((r"MAX_TEXT"), 5)] (r"MAX_TEXT") 5).2.2 rfl rfl⟩
